import Mathlib

/-!
Verification development for the expense-ledger core of `bot.py`.

The Google-Sheets table is embedded as a `List Record` of data rows: gspread's
`get_all_records()` consumes row 1 of the sheet as the dictionary keys (the
header) and returns only the rows after it, so the header row is never part of
the list.  Cells written with `str(...)` on integers (`id`, `user_id`) are
numericised back to integers by gspread, so those fields are embedded as `Int`
and the Python `str(...)` calls as `pyStr`.  The `amount` field is only ever
stored and copied as the string form of a float and no claim depends on float
arithmetic, so amounts are carried as their string forms.  `datetime.now()` is
threaded through as an explicit `now` argument.
-/

/-- One data row of the sheet, columns `id, user_id, username, amount, note,
category, timestamp` (header row excluded, integer cells numericised). -/
structure Record where
  id : Int
  user_id : Int
  username : String
  amount : String
  note : String
  category : String
  timestamp : String
deriving Repr, DecidableEq

/-- Python `str()` applied to an integer value. -/
def pyStr (n : Int) : String := toString n

/-- The comprehension `[rec for rec in records if str(rec['user_id']) == str(user_id)]`
shared by every query function in `bot.py`. -/
def user_filter (records : List Record) (user_id : Int) : List Record :=
  records.filter (fun rec => decide (pyStr rec.user_id = pyStr user_id))

/-- Python `max` over a nonempty list of ints (left-to-right fold; the `[]`
case is a placeholder never reached by `get_next_id`, which only evaluates the
maximum when the list has at least two elements). -/
def listMaxInt : List Int → Int
  | [] => 0
  | [x] => x
  | x :: xs => max x (listMaxInt xs)

/-- Embeds `get_next_id` (bot.py lines 65-71): return 1 when
`not records or len(records) <= 1`, else `max(int(record['id']) for record in
records[1:]) + 1`.  Note that the source skips `records[0]`. -/
def get_next_id (records : List Record) : Int :=
  if records.length ≤ 1 then 1
  else listMaxInt ((records.drop 1).map (fun r => r.id)) + 1

/-- Embeds `add_expense_to_sheet` (bot.py lines 73-77): allocate the next id,
append the row, return the id.  `current_time` is the `now_str` argument. -/
def add_expense_to_sheet (records : List Record) (now_str : String) (user_id : Int)
    (username amount note : String) (category : String) : List Record × Int :=
  let next_id := get_next_id records
  (records ++ [{ id := next_id, user_id := user_id, username := username,
                 amount := amount, note := note, category := category,
                 timestamp := now_str }], next_id)

/-- A Python `datetime` value with second precision, as produced by
`datetime.strptime(..., '%Y-%m-%d %H:%M:%S')`. -/
structure PyDateTime where
  year : Nat
  month : Nat
  day : Nat
  hour : Nat
  minute : Nat
  second : Nat
deriving Repr, DecidableEq

/-- Gregorian leap-year test, as in Python's `calendar.isleap`. -/
def is_leap (y : Nat) : Bool := y % 4 == 0 && (y % 100 != 0 || y % 400 == 0)

/-- Number of days in a month, as validated by the `datetime` constructor. -/
def days_in_month (y m : Nat) : Nat :=
  if m == 2 then (if is_leap y then 29 else 28)
  else if m == 4 || m == 6 || m == 9 || m == 11 then 30
  else 31

/-- Days in year `y` before the first day of month `m` (Python's
`_days_before_month`). -/
def days_before_month (y m : Nat) : Nat :=
  [0, 0, 31, 59, 90, 120, 151, 181, 212, 243, 273, 304, 334].getD m 0 +
    (if 2 < m ∧ is_leap y = true then 1 else 0)

/-- Days before January 1st of year `y` (Python's `_days_before_year`). -/
def days_before_year (y : Nat) : Nat :=
  let n := y - 1
  n * 365 + n / 4 - n / 100 + n / 400

/-- Python `date.toordinal()`: proleptic Gregorian ordinal, with 0001-01-01
mapped to 1. -/
def toordinal (y m d : Nat) : Nat := days_before_year y + days_before_month y m + d

/-- Ordinal of the calendar date of a datetime (its `.date()`; comparing these
ordinals agrees with Python's comparison of `date` objects on valid dates). -/
def dateOrd (t : PyDateTime) : Nat := toordinal t.year t.month t.day

/-- Python `date.weekday()`: Monday is 0, Sunday is 6. -/
def weekdayOf (t : PyDateTime) : Nat := (dateOrd t + 6) % 7

/-- Equality of the `.date()` parts of two datetimes. -/
def sameDate (a b : PyDateTime) : Bool :=
  a.year == b.year && a.month == b.month && a.day == b.day

/-- Splits a character list at every occurrence of `sep`, like Python
`str.split(sep)`: `"a-b".split('-') == ["a","b"]`, with empty pieces kept. -/
def splitOnCharAux (sep : Char) : List Char → List Char → List (List Char)
  | [], acc => [acc.reverse]
  | c :: cs, acc =>
    if c == sep then acc.reverse :: splitOnCharAux sep cs []
    else splitOnCharAux sep cs (c :: acc)

/-- See `splitOnCharAux`. -/
def splitOnChar (sep : Char) (cs : List Char) : List (List Char) :=
  splitOnCharAux sep cs []

/-- Numeric value of a decimal digit character. -/
def digit_val (c : Char) : Nat := c.toNat - '0'.toNat

/-- Value of a string of decimal digits. -/
def digits_to_nat (cs : List Char) : Nat :=
  cs.foldl (fun acc c => acc * 10 + digit_val c) 0

/-- Matches one numeric field of a CPython `_strptime` regex: between `minLen`
and `maxLen` decimal digits (value-range checks are done by the callers). -/
def parse_digits (cs : List Char) (minLen maxLen : Nat) : Option Nat :=
  if 1 ≤ minLen ∧ minLen ≤ cs.length ∧ cs.length ≤ maxLen ∧ cs.all Char.isDigit = true then
    some (digits_to_nat cs)
  else none

/-- Splits the input at a single interior run of whitespace, as CPython
`_strptime` compiles a literal space in the format to the regex `\s+` and then
requires the whole input to be consumed: both parts must be nonempty and free
of whitespace (so leading or trailing whitespace is rejected). -/
def split_ws (cs : List Char) : Option (List Char × List Char) :=
  let dp := cs.takeWhile (fun c => !c.isWhitespace)
  let rest := cs.dropWhile (fun c => !c.isWhitespace)
  let tp := rest.dropWhile (fun c => c.isWhitespace)
  if dp ≠ [] ∧ rest ≠ [] ∧ tp ≠ [] ∧ tp.all (fun c => !c.isWhitespace) = true then
    some (dp, tp)
  else none

/-- Parses `%Y-%m-%d`: a 4-digit year, 1-2 digit month and day, with the value
ranges of the strptime regex and the `datetime` constructor (year at least 1,
day not exceeding the length of the month). -/
def parse_ymd (cs : List Char) : Option (Nat × Nat × Nat) :=
  match splitOnChar '-' cs with
  | [ys, ms, ds] =>
    match parse_digits ys 4 4, parse_digits ms 1 2, parse_digits ds 1 2 with
    | some y, some m, some d =>
      if 1 ≤ y ∧ 1 ≤ m ∧ m ≤ 12 ∧ 1 ≤ d ∧ d ≤ days_in_month y m then
        some (y, m, d)
      else none
    | _, _, _ => none
  | _ => none

/-- Parses `%H:%M:%S` with the value ranges of the strptime regex. -/
def parse_hms (cs : List Char) : Option (Nat × Nat × Nat) :=
  match splitOnChar ':' cs with
  | [hs, ms, ss] =>
    match parse_digits hs 1 2, parse_digits ms 1 2, parse_digits ss 1 2 with
    | some h, some mi, some s =>
      if h ≤ 23 ∧ mi ≤ 59 ∧ s ≤ 59 then some (h, mi, s) else none
    | _, _, _ => none
  | _ => none

/-- Embeds `datetime.strptime(s, '%Y-%m-%d %H:%M:%S')`, returning `none` where
Python raises `ValueError`. -/
def strptime_ts (s : String) : Option PyDateTime :=
  match split_ws s.data with
  | none => none
  | some (dp, tp) =>
    match parse_ymd dp, parse_hms tp with
    | some (y, m, d), some (h, mi, sec) => some ⟨y, m, d, h, mi, sec⟩
    | _, _ => none

/-- Embeds `datetime.strptime(s, '%d/%m/%Y')`, returning the `(year, month,
day)` of the resulting midnight datetime, or `none` where Python raises
`ValueError`. -/
def strptime_dmy (s : String) : Option (Nat × Nat × Nat) :=
  match splitOnChar '/' s.data with
  | [ds, ms, ys] =>
    match parse_digits ds 1 2, parse_digits ms 1 2, parse_digits ys 4 4 with
    | some d, some m, some y =>
      if 1 ≤ y ∧ 1 ≤ m ∧ m ≤ 12 ∧ 1 ≤ d ∧ d ≤ days_in_month y m then
        some (y, m, d)
      else none
    | _, _, _ => none
  | _ => none

/-- Embeds `datetime.strptime(s, '%m/%Y')`, returning `(year, month)` or
`none` where Python raises `ValueError`. -/
def strptime_my (s : String) : Option (Nat × Nat) :=
  match splitOnChar '/' s.data with
  | [ms, ys] =>
    match parse_digits ms 1 2, parse_digits ys 4 4 with
    | some m, some y => if 1 ≤ y ∧ 1 ≤ m ∧ m ≤ 12 then some (y, m) else none
    | _, _ => none
  | _ => none

/-- The shared filtering loop of the query functions: parse each record's
`timestamp` in order and keep the records satisfying `keep`.  The first
timestamp on which `strptime` raises `ValueError` aborts the whole loop, which
is modelled by `Except.error ()`. -/
def filter_records (l : List Record) (keep : PyDateTime → Bool) : Except Unit (List Record) :=
  match l with
  | [] => .ok []
  | r :: rs =>
    match strptime_ts r.timestamp with
    | none => .error ()
    | some t =>
      match filter_records rs keep with
      | .error e => .error e
      | .ok tail => .ok (if keep t then r :: tail else tail)

/-- The `time_range` branch tests performed inside the loop of
`get_expenses_by_time_range` (bot.py lines 173-182); an unrecognised
`time_range` keeps nothing. -/
def time_range_pred (time_range : String) (now : PyDateTime) (t : PyDateTime) : Bool :=
  if time_range = "today" then sameDate t now
  else if time_range = "week" then decide (dateOrd now - weekdayOf now ≤ dateOrd t)
  else if time_range = "month" then t.month == now.month && t.year == now.year
  else false

/-- Embeds `get_expenses_by_time_range` (bot.py lines 162-184).  The week
branch compares `expense_time.date() >= (now - timedelta(days=now.weekday())).date()`,
which on ordinals is `dateOrd now - weekdayOf now ≤ dateOrd t`.  A `ValueError`
from a timestamp of the queried user propagates (there is no try/except). -/
def get_expenses_by_time_range (records : List Record) (user_id : Int)
    (time_range : String) (now : PyDateTime) : Except Unit (List Record) :=
  filter_records (user_filter records user_id) (time_range_pred time_range now)

/-- Embeds `get_expenses_by_date` (bot.py lines 186-201): everything runs in a
`try` whose `except ValueError` returns `[]`, covering both a malformed
`date_str` and a malformed stored timestamp of the queried user. -/
def get_expenses_by_date (records : List Record) (user_id : Int) (date_str : String) :
    List Record :=
  match strptime_dmy date_str with
  | none => []
  | some (y, m, d) =>
    match filter_records (user_filter records user_id)
        (fun t => t.year == y && t.month == m && t.day == d) with
    | .error _ => []
    | .ok l => l

/-- Embeds `get_expenses_by_month` (bot.py lines 203-218), with the same
`try`/`except ValueError` structure as `get_expenses_by_date`. -/
def get_expenses_by_month (records : List Record) (user_id : Int) (month_str : String) :
    List Record :=
  match strptime_my month_str with
  | none => []
  | some (y, m) =>
    match filter_records (user_filter records user_id)
        (fun t => t.month == m && t.year == y) with
    | .error _ => []
    | .ok l => l

/-- Embeds `get_expense_by_id` (bot.py lines 220-226): first record whose id's
string form equals the given id string, else `None`. -/
def get_expense_by_id (records : List Record) (expense_id : String) : Option Record :=
  records.find? (fun record => decide (pyStr record.id = expense_id))

/-- The effect of the three conditional `update_cell` calls of `update_expense`
on the matched row: columns 4, 5, 6 are `amount`, `note`, `category`, each
overwritten only when the corresponding argument is not `None`. -/
def applyChanges (r : Record) (amount note category : Option String) : Record :=
  { r with amount := amount.getD r.amount,
           note := note.getD r.note,
           category := category.getD r.category }

/-- Embeds `update_expense` (bot.py lines 228-240): scan the rows in order,
overwrite the changed columns of the first row whose id's string form equals
`str(expense_id)` and return `True`; return `False` when no row matches. -/
def update_expense (records : List Record) (expense_id : String)
    (amount note category : Option String) : List Record × Bool :=
  match records with
  | [] => ([], false)
  | r :: rs =>
    if pyStr r.id = expense_id then
      (applyChanges r amount note category :: rs, true)
    else
      let p := update_expense rs expense_id amount note category
      (r :: p.1, p.2)

/-- The draft stored in `context.user_data['pending_expense']` (bot.py
lines 342-345). -/
structure PendingExpense where
  amount : String
  note : String
deriving Repr, DecidableEq

/-- The draft stored in `context.user_data['pending_edit']` (bot.py
lines 496-501). -/
structure PendingEdit where
  expense_id : String
  amount : String
  note : String
  current_category : String
deriving Repr, DecidableEq

/-- One user's `context.user_data`: the two independent optional keys
`pending_expense` and `pending_edit`. -/
structure UserData where
  pending_expense : Option PendingExpense
  pending_edit : Option PendingEdit
deriving Repr, DecidableEq

/-- The sheet together with one user's session dictionary. -/
structure BotState where
  sheet : List Record
  user_data : UserData
deriving Repr, DecidableEq

/-- The replies the handlers send back, abstracted from the message texts. -/
inductive Reply where
  | askCategory
  | added (expense_id : Int) (amount note category : String)
  | notFound (expense_id : String)
  | notYourExpense
  | updated (expense_id : String) (amount note category : String)
  | updateFailed
  | noPending
deriving Repr, DecidableEq

/-- Embeds the body of the `add` handler (bot.py lines 335-355) after
`float(args[0])` succeeded and the trailing-category recognition produced
`category` (`none` when no known category was supplied).  Without a category
the draft is stored under `pending_expense` — the `pending_edit` key is not
touched — and the category keyboard is shown; with a category the record is
appended directly. -/
def add (st : BotState) (now_str : String) (user_id : Int) (username : String)
    (amount note : String) (category : Option String) : BotState × Reply :=
  match category with
  | none =>
    ({ st with user_data :=
        { st.user_data with pending_expense := some { amount := amount, note := note } } },
      Reply.askCategory)
  | some cat =>
    let p := add_expense_to_sheet st.sheet now_str user_id username amount note cat
    ({ st with sheet := p.1 }, Reply.added p.2 amount note cat)

/-- Embeds the body of the `edit` handler (bot.py lines 477-517) after argument
parsing: look the record up by id, reject a missing id, reject a caller whose
`str(user_id)` differs from the record's, then either stage a `pending_edit`
draft (no category supplied; `pending_expense` is not touched) or update
directly. -/
def edit (st : BotState) (user_id : Int) (expense_id : String)
    (amount note : String) (category : Option String) : BotState × Reply :=
  match get_expense_by_id st.sheet expense_id with
  | none => (st, Reply.notFound expense_id)
  | some expense =>
    if pyStr expense.user_id ≠ pyStr user_id then
      (st, Reply.notYourExpense)
    else
      match category with
      | none =>
        let draft : PendingEdit :=
          { expense_id := expense_id, amount := amount, note := note,
            current_category := expense.category }
        ({ st with user_data := { st.user_data with pending_edit := some draft } },
          Reply.askCategory)
      | some cat =>
        let p := update_expense st.sheet expense_id (some amount) (some note) (some cat)
        if p.2 then ({ st with sheet := p.1 }, Reply.updated expense_id amount note cat)
        else (st, Reply.updateFailed)

/-- Embeds the `category_` branch of `button_callback` (bot.py lines 283-325):
a pending new expense is finalised first and its key deleted (leaving
`pending_edit` in place); otherwise a pending edit is applied and its key
deleted; otherwise nothing is pending. -/
def button_callback_category (st : BotState) (now_str : String) (user_id : Int)
    (username : String) (category : String) : BotState × Reply :=
  match st.user_data.pending_expense with
  | some pe =>
    let p := add_expense_to_sheet st.sheet now_str user_id username pe.amount pe.note category
    ({ sheet := p.1,
       user_data := { st.user_data with pending_expense := none } },
      Reply.added p.2 pe.amount pe.note category)
  | none =>
    match st.user_data.pending_edit with
    | some pd =>
      let p := update_expense st.sheet pd.expense_id (some pd.amount) (some pd.note) (some category)
      ({ sheet := p.1,
         user_data := { st.user_data with pending_edit := none } },
        if p.2 then Reply.updated pd.expense_id pd.amount pd.note category
        else Reply.updateFailed)
    | none => (st, Reply.noPending)

/-- Joint outcome of `json.loads(result)`, the key accesses
`parsed['amount']`, `parsed['note']`, `parsed['category']` and the coercion
`float(parsed['amount'])` on the cleaned response text, classified by the
exception raised (external library behaviour, passed in as an oracle). -/
inductive ConvOutcome where
  | ok (amount note category : String)
  | jsonDecodeError (msg : String)
  | keyError (msg : String)
  | otherExc (msg : String)
deriving DecidableEq

/-- An exception observed by the caller of the parser: either the `ValueError`
the parser raises itself, or an exception that propagated unconverted out of
the service call, carrying its raw text. -/
inductive PyExc where
  | valueError (msg : String)
  | raw (msg : String)
deriving DecidableEq

/-- The message of the `ValueError` raised on `json.JSONDecodeError` and on
`KeyError` (bot.py lines 152 and 156). -/
def parse_fail_msg : String :=
  "Failed to parse expense details. Please try again with a different format."

/-- The message of the `ValueError` raised on any other conversion exception
(bot.py line 160). -/
def parse_unexpected_msg : String := "An unexpected error occurred. Please try again."

/-- Embeds the response clean-up of `parse_expense_with_gemini` (bot.py
lines 136-143): strip, drop a leading 7-character code-fence marker
`\x60\x60\x60json`, drop a trailing 3-character fence, strip again. -/
def strip_fences (s : String) : String :=
  let r := s.trim
  let r := if r.startsWith "\x60\x60\x60json" then r.drop 7 else r
  let r := if r.endsWith "\x60\x60\x60" then r.dropRight 3 else r
  r.trim

/-- Embeds `parse_expense_with_gemini` (bot.py lines 115-160).  `service` is
the result of `model.generate_content(prompt)` followed by `response.text`:
`Except.error` carries the raw text of an exception raised by the call itself.
That call stands OUTSIDE the `try` block, so its exceptions propagate to the
caller unconverted; only the conversion of the response text (`convert`) is
guarded, and each of its failure modes is converted to a `ValueError` with a
fixed message. -/
def parse_expense_with_gemini (convert : String → ConvOutcome)
    (service : Except String String) : Except PyExc (String × String × String) :=
  match service with
  | .error e => .error (.raw e)
  | .ok text =>
    match convert (strip_fences text) with
    | .ok a n c => .ok (a, n, c)
    | .jsonDecodeError _ => .error (.valueError parse_fail_msg)
    | .keyError _ => .error (.valueError parse_fail_msg)
    | .otherExc _ => .error (.valueError parse_unexpected_msg)

/-- True exactly on the exceptions the parser itself raises (a typed
`ValueError`), false on raw exceptions that escaped the service call. -/
def is_value_error : PyExc → Bool
  | .valueError _ => true
  | .raw _ => false

/-- A fixed conversion oracle used for concrete evaluations. -/
def conv0 : String → ConvOutcome := fun _ => ConvOutcome.jsonDecodeError ""

deriving instance DecidableEq for Except

/-- Holds of a record exactly when its timestamp parses and the parsed
datetime satisfies `keep`; this is what one loop iteration of the query
functions tests on a record it does not raise on. -/
def keep_parsed (keep : PyDateTime → Bool) (r : Record) : Bool :=
  match strptime_ts r.timestamp with
  | some t => keep t
  | none => false

/-- The week-branch test of `get_expenses_by_time_range` as a predicate on the
parsed datetime: the record's date is on or after the Monday of `now`'s week
(`now` minus its zero-indexed weekday number). -/
def week_keep (now : PyDateTime) (t : PyDateTime) : Bool :=
  decide (dateOrd now - weekdayOf now ≤ dateOrd t)

/-- A concrete record used in the concrete evaluations below. -/
def rec1 : Record :=
  { id := 1, user_id := 42, username := "alice", amount := "50000.0",
    note := "lunch", category := "Other", timestamp := "2024-01-10 12:00:00" }

/-- A record sharing its id with `recB`. -/
def recA : Record :=
  { id := 7, user_id := 42, username := "alice", amount := "10.0",
    note := "tea", category := "Other", timestamp := "2024-01-09 09:00:00" }

/-- A record sharing its id with `recA`. -/
def recB : Record :=
  { id := 7, user_id := 43, username := "bob", amount := "20.0",
    note := "bus", category := "Other", timestamp := "2024-01-09 10:00:00" }

/-- Record timestamped the Sunday preceding the Monday of `wnow`'s week. -/
def recSun : Record :=
  { id := 2, user_id := 42, username := "alice", amount := "5.0",
    note := "sun", category := "Other", timestamp := "2024-01-07 23:59:59" }

/-- Record timestamped exactly the Monday of `wnow`'s week. -/
def recMon8 : Record :=
  { id := 3, user_id := 42, username := "alice", amount := "6.0",
    note := "mon", category := "Other", timestamp := "2024-01-08 00:00:00" }

/-- Record timestamped the Monday following `wnow`. -/
def recMon15 : Record :=
  { id := 4, user_id := 42, username := "alice", amount := "7.0",
    note := "next mon", category := "Other", timestamp := "2024-01-15 08:30:00" }

/-- Wednesday 2024-01-10: the Monday of its week is 2024-01-08. -/
def wnow : PyDateTime := ⟨2024, 1, 10, 12, 0, 0⟩

/-- Sheet used for the week-boundary evaluation. -/
def wrecords : List Record := [recSun, recMon8, recMon15]

/-- A record of user 42 whose timestamp does not have the stored format. -/
def badRec : Record :=
  { id := 5, user_id := 42, username := "alice", amount := "8.0",
    note := "bad", category := "Other", timestamp := "yesterday" }

/-- A record of user 42 dated 2024-01-10, well-formed. -/
def goodRec : Record :=
  { id := 6, user_id := 42, username := "alice", amount := "9.0",
    note := "good", category := "Other", timestamp := "2024-01-10 10:00:00" }

/-- Sheet holding one well-formed and one malformed timestamp for user 42. -/
def qrecords : List Record := [goodRec, badRec]

/-- Empty session dictionary. -/
def ud0 : UserData := { pending_expense := none, pending_edit := none }

/-- Starting state: one record owned by user 42, nothing pending. -/
def st0 : BotState := { sheet := [rec1], user_data := ud0 }

/-- State after user 42 starts an add draft (amount 200.0, note dinner)
without picking a category. -/
def st1 : BotState := (add st0 "2024-01-10 13:00:00" 42 "alice" "200.0" "dinner" none).1

/-- State after user 42 additionally starts an edit draft on record 1 without
picking a category: both drafts are now stored. -/
def st2 : BotState := (edit st1 42 "1" "300.0" "groceries" none).1

/-- The new-expense draft held in `st1` and `st2`. -/
def peDinner : PendingExpense := { amount := "200.0", note := "dinner" }

/-- The edit draft held in `st2`. -/
def pdGroceries : PendingEdit :=
  { expense_id := "1", amount := "300.0", note := "groceries",
    current_category := "Other" }

/-- A state in which both drafts are pending simultaneously. -/
def stBoth : BotState :=
  { sheet := [rec1],
    user_data := { pending_expense := some peDinner, pending_edit := some pdGroceries } }


theorem update_expense_flag (records : List Record) (eid : String) (a n c : Option String) :
    (update_expense records eid a n c).2 = true ↔ ∃ r ∈ records, pyStr r.id = eid := by
  induction records with
  | nil => simp [update_expense]
  | cons r rs ih =>
    by_cases h : pyStr r.id = eid
    · simp [update_expense, h]
    · simp [update_expense, h, ih]

theorem update_expense_earliest (l1 : List Record) (r : Record) (l2 : List Record)
    (eid : String) (a n c : Option String)
    (hl1 : ∀ x ∈ l1, pyStr x.id ≠ eid) (hr : pyStr r.id = eid) :
    update_expense (l1 ++ r :: l2) eid a n c = (l1 ++ applyChanges r a n c :: l2, true) := by
  induction l1 with
  | nil => simp [update_expense, hr]
  | cons x xs ih =>
    have hx : pyStr x.id ≠ eid := hl1 x (by simp)
    have ih2 := ih (fun y hy => hl1 y (by simp [hy]))
    simp [update_expense, hx, ih2]

theorem update_expense_nomatch (records : List Record) (eid : String) (a n c : Option String)
    (h : ∀ x ∈ records, pyStr x.id ≠ eid) :
    update_expense records eid a n c = (records, false) := by
  induction records with
  | nil => rfl
  | cons x xs ih =>
    have hx : pyStr x.id ≠ eid := h x (by simp)
    have ih2 := ih (fun y hy => h y (by simp [hy]))
    simp [update_expense, hx, ih2]

theorem update_expense_length (records : List Record) (eid : String) (a n c : Option String) :
    (update_expense records eid a n c).1.length = records.length := by
  induction records with
  | nil => rfl
  | cons x xs ih =>
    by_cases h : pyStr x.id = eid
    · simp [update_expense, h]
    · simp [update_expense, h, ih]

theorem update_expense_fields (records : List Record) (eid : String) (a n c : Option String) :
    ∀ (j : Nat) (r r2 : Record),
      records[j]? = some r → (update_expense records eid a n c).1[j]? = some r2 →
      r2.id = r.id ∧ r2.user_id = r.user_id ∧ r2.username = r.username ∧
      r2.timestamp = r.timestamp ∧
      (a = none → r2.amount = r.amount) ∧ (n = none → r2.note = r.note) ∧
      (c = none → r2.category = r.category) := by
  induction records with
  | nil => intro j r r2 hr _; simp at hr
  | cons x xs ih =>
    intro j r r2 hr hr2
    by_cases h : pyStr x.id = eid
    · rw [show update_expense (x :: xs) eid a n c = (applyChanges x a n c :: xs, true) from by
        simp [update_expense, h]] at hr2
      cases j with
      | zero =>
        simp only [List.getElem?_cons_zero, Option.some.injEq] at hr hr2
        subst hr; subst hr2
        refine ⟨rfl, rfl, rfl, rfl, ?_, ?_, ?_⟩ <;>
          (intro hh; subst hh; simp [applyChanges])
      | succ jj =>
        simp only [List.getElem?_cons_succ] at hr hr2
        rw [hr] at hr2
        cases hr2
        exact ⟨rfl, rfl, rfl, rfl, fun _ => rfl, fun _ => rfl, fun _ => rfl⟩
    · rw [show update_expense (x :: xs) eid a n c =
          (x :: (update_expense xs eid a n c).1, (update_expense xs eid a n c).2) from by
        simp [update_expense, h]] at hr2
      cases j with
      | zero =>
        simp only [List.getElem?_cons_zero, Option.some.injEq] at hr hr2
        subst hr; subst hr2
        exact ⟨rfl, rfl, rfl, rfl, fun _ => rfl, fun _ => rfl, fun _ => rfl⟩
      | succ jj =>
        simp only [List.getElem?_cons_succ] at hr hr2
        exact ih jj r r2 hr hr2

/-- C1: the claim says the id allocated by the add path equals one plus the
maximum id present (1 only when the ledger holds no records), so that ids of
successive adds strictly increase and never repeat.  The code disagrees:
`get_all_records()` never returns the header row, yet `get_next_id` treats the
first returned record as a header — it returns 1 whenever at most one record
exists and ignores the first record's id otherwise.  Concretely: with the
single record `rec1` (id 1) present, the allocator hands out id 1 again; two
successive adds to an empty ledger both allocate id 1; and with ids {7, 1}
present the allocator hands out 2 instead of 8. -/
theorem c1_get_next_id_reuses_existing_id :
    get_next_id [rec1] = 1 ∧ rec1.id = 1 ∧
    (add_expense_to_sheet [] "2024-01-10 12:00:00" 42 "alice" "100.0" "a" "Other").2 = 1 ∧
    (add_expense_to_sheet
        (add_expense_to_sheet [] "2024-01-10 12:00:00" 42 "alice" "100.0" "a" "Other").1
        "2024-01-10 12:01:00" 42 "alice" "200.0" "b" "Other").2 = 1 ∧
    get_next_id [recA, rec1] = 2 ∧ recA.id = 7 := by
  decide

/-- C4: `update_expense` never changes the matched record's `id`, `user_id`,
`username` or `timestamp` columns and overwrites only the columns whose
argument was supplied; every row keeps its position and rows are neither added
nor removed. -/
theorem c4_update_expense_frame (records : List Record) (eid : String)
    (a n c : Option String) :
    (update_expense records eid a n c).1.length = records.length ∧
    ∀ (j : Nat) (r r2 : Record),
      records[j]? = some r → (update_expense records eid a n c).1[j]? = some r2 →
      r2.id = r.id ∧ r2.user_id = r.user_id ∧ r2.username = r.username ∧
      r2.timestamp = r.timestamp ∧
      (a = none → r2.amount = r.amount) ∧ (n = none → r2.note = r.note) ∧
      (c = none → r2.category = r.category) :=
  ⟨update_expense_length records eid a n c, update_expense_fields records eid a n c⟩

theorem c4_update_expense_frame_witness :
    (update_expense [rec1] "1" none (some "after") none).1.length = 1 ∧
    (({ rec1 with note := "after" } : Record).id = rec1.id ∧
     ({ rec1 with note := "after" } : Record).user_id = rec1.user_id ∧
     ({ rec1 with note := "after" } : Record).username = rec1.username ∧
     ({ rec1 with note := "after" } : Record).timestamp = rec1.timestamp ∧
     ((none : Option String) = none → ({ rec1 with note := "after" } : Record).amount = rec1.amount) ∧
     ((some "after" : Option String) = none → ({ rec1 with note := "after" } : Record).note = rec1.note) ∧
     ((none : Option String) = none → ({ rec1 with note := "after" } : Record).category = rec1.category)) := by
  have h := c4_update_expense_frame [rec1] "1" none (some "after") none
  exact ⟨h.1, h.2 0 rec1 { rec1 with note := "after" } (by decide) (by decide)⟩

/-- C5: an `edit` whose target id is absent fails with the not-found reply and
leaves the state unchanged; an `edit` by a caller whose `str(user_id)` differs
from the found record's fails with the authorization reply and leaves the
state unchanged — for any id, arguments and category. -/
theorem c5_edit_auth_notfound (st : BotState) (uid : Int) (eid amount note : String)
    (category : Option String) :
    (get_expense_by_id st.sheet eid = none →
      edit st uid eid amount note category = (st, Reply.notFound eid)) ∧
    (∀ r, get_expense_by_id st.sheet eid = some r → pyStr r.user_id ≠ pyStr uid →
      edit st uid eid amount note category = (st, Reply.notYourExpense)) := by
  constructor
  · intro h
    simp [edit, h]
  · intro r hr hne
    simp [edit, hr, hne]

theorem c5_edit_auth_notfound_witness :
    edit st0 42 "99" "1.0" "x" none = (st0, Reply.notFound "99") ∧
    edit st0 7 "1" "1.0" "x" none = (st0, Reply.notYourExpense) :=
  ⟨(c5_edit_auth_notfound st0 42 "99" "1.0" "x" none).1 (by decide),
   (c5_edit_auth_notfound st0 7 "1" "1.0" "x" none).2 rec1 (by decide) (by decide)⟩

/-- C7: an absolute-date or absolute-month query whose query string does not
parse in the `DD/MM/YYYY` (resp. `MM/YYYY`) format returns the empty list
instead of signalling an error, for every sheet and owner. -/
theorem c7_malformed_query_empty (records : List Record) (uid : Int) (q : String) :
    (strptime_dmy q = none → get_expenses_by_date records uid q = []) ∧
    (strptime_my q = none → get_expenses_by_month records uid q = []) := by
  constructor
  · intro h
    simp [get_expenses_by_date, h]
  · intro h
    simp [get_expenses_by_month, h]

theorem c7_malformed_query_empty_witness :
    get_expenses_by_date [rec1] 42 "31/02/2021" = [] ∧
    get_expenses_by_month [rec1] 42 "00/2021" = [] :=
  ⟨(c7_malformed_query_empty [rec1] 42 "31/02/2021").1 (by decide),
   (c7_malformed_query_empty [rec1] 42 "00/2021").2 (by decide)⟩

/-- C10: `update_expense` matches rows by comparing the string forms of ids;
it returns true exactly when some row matches, modifies exactly the earliest
matching row (later rows — including duplicates of the same id — are returned
verbatim), and leaves the sheet untouched returning false when no row
matches. -/
theorem c10_update_first_match (records : List Record) (eid : String)
    (a n c : Option String) :
    ((update_expense records eid a n c).2 = true ↔ ∃ r ∈ records, pyStr r.id = eid) ∧
    (∀ l1 r l2, records = l1 ++ r :: l2 → (∀ x ∈ l1, pyStr x.id ≠ eid) →
      pyStr r.id = eid →
      update_expense records eid a n c = (l1 ++ applyChanges r a n c :: l2, true)) ∧
    ((∀ x ∈ records, pyStr x.id ≠ eid) →
      update_expense records eid a n c = (records, false)) := by
  refine ⟨update_expense_flag records eid a n c, ?_,
    update_expense_nomatch records eid a n c⟩
  intro l1 r l2 hsplit h1 hr
  subst hsplit
  exact update_expense_earliest l1 r l2 eid a n c h1 hr

theorem c10_update_first_match_witness :
    update_expense [recA, recB] "7" (some "99.0") none none =
      ([{ recA with amount := "99.0" }, recB], true) := by
  have h := (c10_update_first_match [recA, recB] "7" (some "99.0") none none).2.1
      [] recA [recB] rfl (by simp) (by decide)
  exact h

/-- C2 counterexample: the claim says at most one pending operation is live
per user and that starting a draft of either kind discards a pending draft of
the other kind, so that a category selection finalizes the most recently
started draft.  In the code the two drafts live under independent keys: after
user 42 starts an add draft and then an edit draft, BOTH are pending, and the
category selection finalizes the older add draft (appending a record) while
the more recently started edit draft stays pending. -/
theorem c2_counterexample_two_drafts_live :
    st2.user_data.pending_expense = some peDinner ∧
    st2.user_data.pending_edit = some pdGroceries ∧
    (button_callback_category st2 "2024-01-10 13:05:00" 42 "alice" "Food").1.user_data.pending_edit
      = some pdGroceries ∧
    (button_callback_category st2 "2024-01-10 13:05:00" 42 "alice" "Food").1.sheet
      = st2.sheet ++
        [{ id := 1, user_id := 42, username := "alice", amount := "200.0",
           note := "dinner", category := "Food",
           timestamp := "2024-01-10 13:05:00" }] := by
  decide

/-- C2 amended: per user there is at most one pending draft of each kind.
Starting a new-expense draft overwrites only `pending_expense`, leaving a
pending edit draft (and the sheet) untouched; staging an edit draft overwrites
only `pending_edit`, leaving a pending new-expense draft (and the sheet)
untouched; a category selection finalizes and clears the new-expense draft in
preference to the edit draft, which stays pending. -/
theorem c2_amended_single_slot_per_kind (st : BotState) (now_str : String) (uid : Int)
    (un amount note eid cat : String) :
    ((add st now_str uid un amount note none).1.user_data.pending_expense =
        some { amount := amount, note := note } ∧
     (add st now_str uid un amount note none).1.user_data.pending_edit =
        st.user_data.pending_edit ∧
     (add st now_str uid un amount note none).1.sheet = st.sheet) ∧
    (∀ r : Record, get_expense_by_id st.sheet eid = some r → pyStr r.user_id = pyStr uid →
      (edit st uid eid amount note none).1.user_data.pending_edit =
          some { expense_id := eid, amount := amount, note := note,
                 current_category := r.category } ∧
      (edit st uid eid amount note none).1.user_data.pending_expense =
          st.user_data.pending_expense ∧
      (edit st uid eid amount note none).1.sheet = st.sheet) ∧
    (∀ pe : PendingExpense, st.user_data.pending_expense = some pe →
      (button_callback_category st now_str uid un cat).1.user_data.pending_expense = none ∧
      (button_callback_category st now_str uid un cat).1.user_data.pending_edit =
          st.user_data.pending_edit) := by
  refine ⟨⟨rfl, rfl, rfl⟩, ?_, ?_⟩
  · intro r hr howner
    have hne : ¬ pyStr r.user_id ≠ pyStr uid := by simp [howner]
    simp [edit, hr, hne]
  · intro pe hpe
    simp [button_callback_category, hpe]

theorem c2_amended_single_slot_per_kind_witness :
    ((edit st0 42 "1" "300.0" "groceries" none).1.user_data.pending_edit =
        some pdGroceries ∧
     (edit st0 42 "1" "300.0" "groceries" none).1.user_data.pending_expense =
        st0.user_data.pending_expense ∧
     (edit st0 42 "1" "300.0" "groceries" none).1.sheet = st0.sheet) ∧
    ((button_callback_category st1 "2024-01-10 13:05:00" 42 "alice" "Food").1.user_data.pending_expense = none ∧
     (button_callback_category st1 "2024-01-10 13:05:00" 42 "alice" "Food").1.user_data.pending_edit =
        st1.user_data.pending_edit) := by
  constructor
  · have h := (c2_amended_single_slot_per_kind st0 "2024-01-10 13:05:00" 42 "alice"
        "300.0" "groceries" "1" "Food").2.1 rec1 (by decide) (by decide)
    exact h
  · exact (c2_amended_single_slot_per_kind st1 "2024-01-10 13:05:00" 42 "alice"
        "300.0" "groceries" "1" "Food").2.2 peDinner (by decide)

/-- C8: when both a new-expense draft and an edit draft are pending for the
same user, a category selection finalizes only the new-expense draft —
appending the corresponding record to the sheet and clearing only
`pending_expense` — while the edit draft stays pending; only a subsequent
category selection finalizes the edit draft, applying `update_expense` and
clearing `pending_edit`. -/
theorem c8_category_selection_prefers_new_expense (st : BotState)
    (now1 now2 : String) (uid : Int) (un cat cat2 : String)
    (pe : PendingExpense) (pd : PendingEdit)
    (hpe : st.user_data.pending_expense = some pe)
    (hpd : st.user_data.pending_edit = some pd) :
    (button_callback_category st now1 uid un cat).1.sheet =
        (add_expense_to_sheet st.sheet now1 uid un pe.amount pe.note cat).1 ∧
    (button_callback_category st now1 uid un cat).1.user_data.pending_expense = none ∧
    (button_callback_category st now1 uid un cat).1.user_data.pending_edit = some pd ∧
    (button_callback_category (button_callback_category st now1 uid un cat).1
        now2 uid un cat2).1.user_data.pending_edit = none ∧
    (button_callback_category (button_callback_category st now1 uid un cat).1
        now2 uid un cat2).1.sheet =
      (update_expense (add_expense_to_sheet st.sheet now1 uid un pe.amount pe.note cat).1
        pd.expense_id (some pd.amount) (some pd.note) (some cat2)).1 := by
  refine ⟨?_, ?_, ?_, ?_, ?_⟩ <;>
    simp [button_callback_category, hpe, hpd]

theorem c8_category_selection_prefers_new_expense_witness :
    (button_callback_category stBoth "2024-01-10 14:00:00" 42 "alice" "Food").1.user_data.pending_expense = none ∧
    (button_callback_category stBoth "2024-01-10 14:00:00" 42 "alice" "Food").1.user_data.pending_edit = some pdGroceries ∧
    (button_callback_category (button_callback_category stBoth "2024-01-10 14:00:00" 42 "alice" "Food").1
        "2024-01-10 14:01:00" 42 "alice" "Housing").1.user_data.pending_edit = none := by
  have h := c8_category_selection_prefers_new_expense stBoth
      "2024-01-10 14:00:00" "2024-01-10 14:01:00" 42 "alice" "Food" "Housing"
      peDinner pdGroceries (by decide) (by decide)
  exact ⟨h.2.1, h.2.2.1, h.2.2.2.1⟩

/-- C3 counterexample: the claim says every failure — including any exception
during the service call — is converted to one typed error with a stable,
user-safe message and no raw exception text reaches the caller.  But the call
`model.generate_content(prompt)` / `response.text` stands outside the `try`
block, so an exception raised there propagates to the caller unconverted,
carrying its raw text. -/
theorem c3_counterexample_raw_service_exception :
    parse_expense_with_gemini conv0
        (Except.error "ServiceUnavailable: 503 quota exceeded for project 1234") =
      Except.error (PyExc.raw "ServiceUnavailable: 503 quota exceeded for project 1234") ∧
    is_value_error (PyExc.raw "ServiceUnavailable: 503 quota exceeded for project 1234") = false :=
  ⟨rfl, rfl⟩

/-- C3 amended: every failure during the CONVERSION of a received service
response — malformed JSON, missing keys, or any other exception while
converting — is turned into a typed `ValueError` carrying one of two fixed
user-safe messages that do not depend on the response text, and no raw service
output is surfaced; exceptions raised by the service call itself, however,
propagate to the caller unconverted. -/
theorem c3_amended_conversion_errors_stable (convert : String → ConvOutcome)
    (text : String) :
    (∃ v, parse_expense_with_gemini convert (Except.ok text) = Except.ok v) ∨
    parse_expense_with_gemini convert (Except.ok text) =
        Except.error (PyExc.valueError parse_fail_msg) ∨
    parse_expense_with_gemini convert (Except.ok text) =
        Except.error (PyExc.valueError parse_unexpected_msg) := by
  cases h : convert (strip_fences text) with
  | ok a n c => exact Or.inl ⟨(a, n, c), by simp [parse_expense_with_gemini, h]⟩
  | jsonDecodeError m => exact Or.inr (Or.inl (by simp [parse_expense_with_gemini, h]))
  | keyError m => exact Or.inr (Or.inl (by simp [parse_expense_with_gemini, h]))
  | otherExc m => exact Or.inr (Or.inr (by simp [parse_expense_with_gemini, h]))

theorem filter_records_all_parse (l : List Record) (keep : PyDateTime → Bool)
    (hparse : ∀ x ∈ l, (strptime_ts x.timestamp).isSome = true) :
    filter_records l keep = Except.ok (l.filter (keep_parsed keep)) := by
  induction l with
  | nil => rfl
  | cons r rs ih =>
    have hr : (strptime_ts r.timestamp).isSome = true := hparse r (by simp)
    have ih2 := ih (fun y hy => hparse y (by simp [hy]))
    cases ht : strptime_ts r.timestamp with
    | none => rw [ht] at hr; simp at hr
    | some t =>
      by_cases hk : keep t
      · simp [filter_records, ht, ih2, List.filter_cons, keep_parsed, hk]
      · simp [filter_records, ht, ih2, List.filter_cons, keep_parsed, hk]

theorem filter_records_bad_timestamp (l : List Record) (keep : PyDateTime → Bool)
    (hbad : ∃ x ∈ l, strptime_ts x.timestamp = none) :
    filter_records l keep = Except.error () := by
  induction l with
  | nil => simp at hbad
  | cons r rs ih =>
    cases ht : strptime_ts r.timestamp with
    | none => simp [filter_records, ht]
    | some t =>
      obtain ⟨x, hx, hxbad⟩ := hbad
      rcases List.mem_cons.mp hx with hx1 | hx2
      · subst hx1; rw [ht] at hxbad; cases hxbad
      · have := ih ⟨x, hx2, hxbad⟩
        simp [filter_records, ht, this]

/-- C9: if any record of the queried owner has a timestamp that does not
parse in the stored `YYYY-MM-DD HH:MM:SS` format, the absolute-date and
absolute-month queries return the empty list — whatever the query strings are
and even when other records of the owner would match. -/
theorem c9_malformed_timestamp_empty (records : List Record) (uid : Int)
    (ds ms : String)
    (hbad : ∃ r ∈ records, pyStr r.user_id = pyStr uid ∧ strptime_ts r.timestamp = none) :
    get_expenses_by_date records uid ds = [] ∧
    get_expenses_by_month records uid ms = [] := by
  obtain ⟨r, hmem, howner, hbadts⟩ := hbad
  have hmem2 : r ∈ user_filter records uid := by
    simp [user_filter, List.mem_filter, hmem, howner]
  have herr : ∀ keep, filter_records (user_filter records uid) keep = Except.error () :=
    fun keep => filter_records_bad_timestamp _ keep ⟨r, hmem2, hbadts⟩
  constructor
  · unfold get_expenses_by_date
    cases h : strptime_dmy ds with
    | none => rfl
    | some p =>
      obtain ⟨y, m, d⟩ := p
      simp [h, herr]
  · unfold get_expenses_by_month
    cases h : strptime_my ms with
    | none => rfl
    | some p =>
      obtain ⟨y, m⟩ := p
      simp [h, herr]

theorem c9_malformed_timestamp_empty_witness :
    get_expenses_by_date qrecords 42 "10/01/2024" = [] ∧
    get_expenses_by_month qrecords 42 "01/2024" = [] :=
  c9_malformed_timestamp_empty qrecords 42 "10/01/2024" "01/2024"
    ⟨badRec, by decide, by decide, by decide⟩

/-- C6: provided every record of the queried owner has a parseable timestamp
(otherwise the handler raises), the week query returns exactly the owner's
records whose date ordinal is at least `dateOrd now - weekdayOf now` — the
Monday of the current week, computed as the current date minus its
zero-indexed weekday number; a record dated the preceding Sunday fails this
bound and is excluded, one dated the following Monday satisfies it and is
included. -/
theorem c6_week_monday_boundary (records : List Record) (uid : Int) (now : PyDateTime)
    (hparse : ∀ x ∈ records, pyStr x.user_id = pyStr uid →
      (strptime_ts x.timestamp).isSome = true) :
    get_expenses_by_time_range records uid "week" now =
      Except.ok ((user_filter records uid).filter (keep_parsed (week_keep now))) ∧
    ∀ r : Record,
      r ∈ (user_filter records uid).filter (keep_parsed (week_keep now)) ↔
        (r ∈ records ∧ pyStr r.user_id = pyStr uid ∧
          ∃ t : PyDateTime, strptime_ts r.timestamp = some t ∧
            dateOrd now - weekdayOf now ≤ dateOrd t) := by
  constructor
  · have hparse2 : ∀ x ∈ user_filter records uid, (strptime_ts x.timestamp).isSome = true := by
      intro x hx
      rw [user_filter, List.mem_filter] at hx
      exact hparse x hx.1 (of_decide_eq_true hx.2)
    have heq : time_range_pred "week" now = week_keep now := by
      funext t
      rfl
    rw [get_expenses_by_time_range, heq]
    exact filter_records_all_parse _ _ hparse2
  · intro r
    rw [List.mem_filter, user_filter, List.mem_filter]
    constructor
    · rintro ⟨⟨hmem, howner⟩, hkeep⟩
      refine ⟨hmem, of_decide_eq_true howner, ?_⟩
      cases ht : strptime_ts r.timestamp with
      | none => simp [keep_parsed, ht] at hkeep
      | some t =>
        simp only [keep_parsed, ht, week_keep, decide_eq_true_eq] at hkeep
        exact ⟨t, rfl, hkeep⟩
    · rintro ⟨hmem, howner, t, ht, hord⟩
      refine ⟨⟨hmem, decide_eq_true howner⟩, ?_⟩
      simp only [keep_parsed, ht, week_keep, decide_eq_true_eq]
      exact hord

theorem c6_week_monday_boundary_witness :
    get_expenses_by_time_range wrecords 42 "week" wnow = Except.ok [recMon8, recMon15] := by
  have h := (c6_week_monday_boundary wrecords 42 wnow (by decide)).1
  rw [h]
  decide
